import Mathlib

/-!
# IPConfiguration request server (`IPConfiguration.bproj/server.c`)

A shallow embedding of the request server of the IPConfiguration daemon:
the credential extractor `read_trailer`, the eleven request handlers
`_ipconfig_*`, the per-message routine `S_ipconfig_server` with its reply
delivery block, and the startup routine `server_init`.

The process-wide variables `S_uid` and `S_gid` are fields of an explicit
`World`; every function of the C file is a function on that world.  What
the C file calls but does not define (the configuration subsystem, the Mach
message primitives, the bootstrap name service, CoreFoundation) is an
`Externals` record of functions over an arbitrary environment state, and
every call into it is recorded, in order, in the world's `trace`.  Named
constants that come from headers are the fields of a `Consts` record.
-/

namespace IPConfiguration

/-! ## C types -/

/-- A `uid_t`: an unsigned 32-bit integer, as a natural number. -/
abbrev uid_t := Nat
/-- A `gid_t`: an unsigned 32-bit integer, as a natural number. -/
abbrev gid_t := Nat
/-- A `kern_return_t`: a C `int`. -/
abbrev kern_return_t := Int
/-- A `mach_msg_return_t`: a C `int`. -/
abbrev mach_msg_return_t := Int
/-- A `boolean_t`: a C `int`. -/
abbrev boolean_t := Int
/-- An `ipconfig_status_t`: a C enumeration. -/
abbrev ipconfig_status_t := Int
/-- An `ipconfig_method_t`: a C enumeration. -/
abbrev ipconfig_method_t := Int
/-- An `if_name_t`: a character buffer holding an interface name. -/
abbrev if_name_t := String
/-- An `inline_data_t`: a byte buffer. -/
abbrev inline_data_t := List Nat
/-- A `mach_port_t` (also `port_t`): a port name. -/
abbrev mach_port_t := Nat

/-- The value a C `int` takes when it is stored in an unsigned 32-bit
variable, as in `S_uid = -1`. -/
def to_u32 (i : Int) : Nat := (i % 2 ^ 32).toNat

/-- The `security_token_t` of a trailer: `val[0]` and `val[1]`. -/
structure security_token_t where
  val0 : Nat
  val1 : Nat
deriving DecidableEq, Repr

/-- The `mach_msg_format_0_trailer_t` that follows a received message. -/
structure mach_msg_format_0_trailer_t where
  msgh_trailer_type : Nat
  msgh_trailer_size : Nat
  msgh_seqno : Nat
  msgh_sender : security_token_t
deriving DecidableEq, Repr

/-- The `mach_msg_header_t` of a message. -/
structure mach_msg_header_t where
  msgh_bits : Nat
  msgh_size : Nat
  msgh_remote_port : mach_port_t
  msgh_local_port : mach_port_t
  msgh_id : Int
deriving DecidableEq, Repr

/-- The `mig_reply_error_t` view of a message buffer: its header and its
`RetCode`.  The field `trailer` is what lies in the buffer at offset
`round_msg(Head.msgh_size)`, where `read_trailer` looks for it. -/
structure mig_reply_error_t where
  Head : mach_msg_header_t
  RetCode : kern_return_t
  trailer : mach_msg_format_0_trailer_t
deriving DecidableEq, Repr

/-- The named constants the file takes from its headers. -/
structure Consts where
  KERN_SUCCESS : kern_return_t
  KERN_FAILURE : kern_return_t
  TRUE : boolean_t
  FALSE : boolean_t
  ipconfig_status_permission_denied_e : ipconfig_status_t
  MACH_MSG_TRAILER_FORMAT_0 : Nat
  MACH_MSG_TRAILER_FORMAT_0_SIZE : Nat
  MACH_MSGH_BITS_COMPLEX : Nat
  MACH_MSGH_BITS_REMOTE_MASK : Nat
  MACH_MSG_TYPE_MOVE_SEND_ONCE : Nat
  MIG_NO_REPLY : kern_return_t
  MACH_PORT_NULL : mach_port_t
  MACH_MSG_SUCCESS : mach_msg_return_t
  MACH_SEND_INVALID_DEST : mach_msg_return_t
  MACH_SEND_TIMED_OUT : mach_msg_return_t
  MACH_SEND_MSG : Nat
  MACH_SEND_TIMEOUT : Nat
  MACH_MSG_TIMEOUT_NONE : Nat
  LOG_INFO : Int
  BOOTSTRAP_SUCCESS : kern_return_t
  BOOTSTRAP_UNKNOWN_SERVICE : kern_return_t
  IPCONFIG_SERVER : String

/-- Values for the constants, for evaluating the model on concrete inputs:
those of the Mach, syslog and bootstrap headers, and representative values
for the two constants of the project's own headers,
`ipconfig_status_permission_denied_e` and `IPCONFIG_SERVER`. -/
def mach : Consts where
  KERN_SUCCESS := 0
  KERN_FAILURE := 5
  TRUE := 1
  FALSE := 0
  ipconfig_status_permission_denied_e := 1
  MACH_MSG_TRAILER_FORMAT_0 := 0
  MACH_MSG_TRAILER_FORMAT_0_SIZE := 20
  MACH_MSGH_BITS_COMPLEX := 0x80000000
  MACH_MSGH_BITS_REMOTE_MASK := 0xff
  MACH_MSG_TYPE_MOVE_SEND_ONCE := 18
  MIG_NO_REPLY := -305
  MACH_PORT_NULL := 0
  MACH_MSG_SUCCESS := 0
  MACH_SEND_INVALID_DEST := 0x10000003
  MACH_SEND_TIMED_OUT := 0x10000004
  MACH_SEND_MSG := 1
  MACH_SEND_TIMEOUT := 0x10
  MACH_MSG_TIMEOUT_NONE := 0
  LOG_INFO := 6
  BOOTSTRAP_SUCCESS := 0
  BOOTSTRAP_UNKNOWN_SERVICE := 1102
  IPCONFIG_SERVER := "com.apple.IPConfiguration"

/-! ## Calls leaving the file -/

/-- One call made by the file into code it does not define, with the
arguments it passes. -/
inductive Event where
  | dprintf (text : String)
  | wait_if (name : if_name_t)
  | wait_all
  | get_if_name (intface : Int)
  | get_if_addr (name : if_name_t)
  | get_if_count
  | get_if_option (name : if_name_t) (option_code : Int)
  | get_if_packet (name : if_name_t)
  | set_if (name : if_name_t) (method : ipconfig_method_t)
      (method_data : inline_data_t) (method_data_len : Nat) (serviceID : Option Nat)
  | set_verbose (verbose : Int)
  | my_log (priority : Int) (text : String)
  | mach_msg (msg : mach_msg_header_t) (option send_size rcv_size : Nat)
      (rcv_name : mach_port_t) (timeout : Nat) (notify : mach_port_t)
  | mach_msg_destroy (msg : mach_msg_header_t)
  | fprintf_stderr (text : String)
  | bootstrap_status (service_name : String)
  | CFMachPortCreate
  | CFMachPortCreateRunLoopSource (port : Nat)
  | CFRunLoopAddSource (rl rls : Nat)
  | CFRelease (cf : Nat)
  | bootstrap_register (service_name : String) (service_port : mach_port_t)
  | mach_error (str : String) (error_value : kern_return_t)
deriving DecidableEq, Repr

/-- The functions the file calls and does not define, over an environment
state `ε` they may read and change.  A pointer argument the callee may write
through is passed as the current content and comes back in the result. -/
structure Externals (ε : Type) where
  wait_if : if_name_t → ε → boolean_t × ε
  wait_all : ε → ε
  get_if_name : Int → if_name_t → ε → (boolean_t × if_name_t) × ε
  get_if_addr : if_name_t → Nat → ε → (boolean_t × Nat) × ε
  get_if_count : ε → Int × ε
  get_if_option : if_name_t → Int → inline_data_t → Nat → ε →
    (boolean_t × inline_data_t × Nat) × ε
  get_if_packet : if_name_t → inline_data_t → Nat → ε →
    (boolean_t × inline_data_t × Nat) × ε
  set_if : if_name_t → ipconfig_method_t → inline_data_t → Nat → Option Nat → ε →
    ipconfig_status_t × ε
  set_verbose : Int → ε → ipconfig_status_t × ε
  mach_msg : mach_msg_header_t → Nat → Nat → Nat → mach_port_t → Nat → mach_port_t → ε →
    mach_msg_return_t × ε
  mach_msg_destroy : mach_msg_header_t → ε → ε
  mach_error_string : Int → String
  bootstrap_port : mach_port_t
  bootstrap_status : mach_port_t → String → boolean_t → ε → (kern_return_t × boolean_t) × ε
  bootstrap_register : mach_port_t → String → mach_port_t → ε → kern_return_t × ε
  CFMachPortCreate : ε → Nat × ε
  CFMachPortCreateRunLoopSource : Nat → ε → Nat × ε
  CFRunLoopGetCurrent : ε → Nat
  CFRunLoopAddSource : Nat → Nat → ε → ε
  CFRelease : Nat → ε → ε
  CFMachPortGetPort : Nat → ε → mach_port_t

/-- The state the file runs in: its two static variables, the state of
everything outside it, and the calls made so far, oldest first. -/
structure World (ε : Type) where
  S_uid : uid_t
  S_gid : gid_t
  env : ε
  trace : List Event

variable {ε : Type}

/-- Record a call at the end of the trace. -/
def World.emit (w : World ε) (e : Event) : World ε :=
  { w with trace := w.trace ++ [e] }

/-- The same world with another environment state. -/
def World.setEnv (w : World ε) (e : ε) : World ε :=
  { w with env := e }

/-- The same world with another stored sender identity. -/
def World.withId (w : World ε) (uid : uid_t) (gid : gid_t) : World ε :=
  { w with S_uid := uid, S_gid := gid }

/-- The calls recorded in `w2` after those already recorded in `w1`. -/
def World.since (w2 w1 : World ε) : List Event :=
  w2.trace.drop w1.trace.length

/-- Whether a call goes to the configuration subsystem at all. -/
def Event.isSubsystemCall : Event → Bool
  | .wait_if _ => true
  | .wait_all => true
  | .get_if_name _ => true
  | .get_if_addr _ => true
  | .get_if_count => true
  | .get_if_option _ _ => true
  | .get_if_packet _ => true
  | .set_if _ _ _ _ _ => true
  | .set_verbose _ => true
  | _ => false

/-- Whether a call is a `my_log` entry. -/
def Event.isLog : Event → Bool
  | .my_log _ _ => true
  | _ => false

/-- Whether a call is a `mach_msg` send. -/
def Event.isSend : Event → Bool
  | .mach_msg _ _ _ _ _ _ _ => true
  | _ => false

/-- Whether a call is a `mach_msg_destroy`. -/
def Event.isDestroy : Event → Bool
  | .mach_msg_destroy _ => true
  | _ => false

/-- Whether a call is a `bootstrap_register`. -/
def Event.isRegister : Event → Bool
  | .bootstrap_register _ _ => true
  | _ => false

/-! ## `read_trailer` (lines 39-58) -/

/-- The function `read_trailer`: store the sender of `request` in `S_uid`
and `S_gid` when its trailer is a large enough format-0 trailer, and `-1`
in both otherwise. -/
def read_trailer (c : Consts) (request : mig_reply_error_t) (w : World ε) : World ε :=
  let trailer := request.trailer
  if trailer.msgh_trailer_type = c.MACH_MSG_TRAILER_FORMAT_0 ∧
      trailer.msgh_trailer_size ≥ c.MACH_MSG_TRAILER_FORMAT_0_SIZE then
    { w with S_uid := trailer.msgh_sender.val0, S_gid := trailer.msgh_sender.val1 }
  else
    { w with S_uid := to_u32 (-1), S_gid := to_u32 (-1) }

/-! ## Request handlers (lines 60-172) -/

/-- What the reply of a routine carries about its outcome: `RetCode` is the
value the handler returns, `status` the value it stores through its
`ipconfig_status_t *` parameter, `none` for a handler that has no such
parameter. -/
structure Outcome where
  RetCode : kern_return_t
  status : Option ipconfig_status_t
deriving DecidableEq, Repr

/-- The handler `_ipconfig_config_if`. -/
def _ipconfig_config_if (c : Consts) (_p : mach_port_t) (name : if_name_t)
    (w : World ε) : kern_return_t × World ε :=
  let w := w.emit (.dprintf ("config called with " ++ name ++ "\n"))
  (c.KERN_SUCCESS, w)

/-- The handler `_ipconfig_config_all`. -/
def _ipconfig_config_all (c : Consts) (_p : mach_port_t)
    (w : World ε) : kern_return_t × World ε :=
  let w := w.emit (.dprintf "config all called\n")
  (c.KERN_SUCCESS, w)

/-- The handler `_ipconfig_wait_if`: `wait_if` is called only when
`S_uid == 0` (the `&&` does not evaluate its right side otherwise). -/
def _ipconfig_wait_if (c : Consts) (x : Externals ε) (_p : mach_port_t) (name : if_name_t)
    (w : World ε) : Outcome × World ε :=
  let w := w.emit (.dprintf ("Waiting for " ++ name ++ " to complete\n"))
  if w.S_uid = 0 then
    let r := x.wait_if name w.env
    let w := (w.emit (.wait_if name)).setEnv r.2
    if r.1 = c.TRUE then
      (⟨c.KERN_SUCCESS, none⟩, w)
    else
      (⟨c.KERN_FAILURE, none⟩, w)
  else
    (⟨c.KERN_FAILURE, none⟩, w)

/-- The handler `_ipconfig_wait_all`. -/
def _ipconfig_wait_all (c : Consts) (x : Externals ε) (_p : mach_port_t)
    (w : World ε) : Outcome × World ε :=
  let w := w.emit (.dprintf "Waiting for all interfaces to complete\n")
  if w.S_uid = 0 then
    let w := (w.emit .wait_all).setEnv (x.wait_all w.env)
    (⟨c.KERN_SUCCESS, none⟩, w)
  else
    (⟨c.KERN_FAILURE, none⟩, w)

/-- The handler `_ipconfig_if_name`; the second component of the result is
the content of the `name` buffer on return. -/
def _ipconfig_if_name (c : Consts) (x : Externals ε) (_p : mach_port_t) (intface : Int)
    (name : if_name_t) (w : World ε) : (kern_return_t × if_name_t) × World ε :=
  let w := w.emit (.dprintf "Getting interface name\n")
  let r := x.get_if_name intface name w.env
  let w := (w.emit (.get_if_name intface)).setEnv r.2
  if r.1.1 = c.TRUE then
    ((c.KERN_SUCCESS, r.1.2), w)
  else
    ((c.KERN_FAILURE, r.1.2), w)

/-- The handler `_ipconfig_if_addr`; the second component of the result is
the content of `*addr` on return. -/
def _ipconfig_if_addr (c : Consts) (x : Externals ε) (_p : mach_port_t) (name : if_name_t)
    (addr : Nat) (w : World ε) : (kern_return_t × Nat) × World ε :=
  let w := w.emit (.dprintf "Getting interface address\n")
  let r := x.get_if_addr name addr w.env
  let w := (w.emit (.get_if_addr name)).setEnv r.2
  if r.1.1 = c.TRUE then
    ((c.KERN_SUCCESS, r.1.2), w)
  else
    ((c.KERN_FAILURE, r.1.2), w)

/-- The handler `_ipconfig_if_count`; the second component of the result is
the content of `*count` on return. -/
def _ipconfig_if_count (c : Consts) (x : Externals ε) (_p : mach_port_t)
    (w : World ε) : (kern_return_t × Int) × World ε :=
  let w := w.emit (.dprintf "Getting interface count\n")
  let r := x.get_if_count w.env
  let w := (w.emit .get_if_count).setEnv r.2
  ((c.KERN_SUCCESS, r.1), w)

/-- The handler `_ipconfig_get_option`; the result carries the contents of
`option_data` and `*option_dataCnt` on return. -/
def _ipconfig_get_option (c : Consts) (x : Externals ε) (_p : mach_port_t) (name : if_name_t)
    (option_code : Int) (option_data : inline_data_t) (option_dataCnt : Nat)
    (w : World ε) : (kern_return_t × inline_data_t × Nat) × World ε :=
  let r := x.get_if_option name option_code option_data option_dataCnt w.env
  let w := (w.emit (.get_if_option name option_code)).setEnv r.2
  if r.1.1 = c.TRUE then
    ((c.KERN_SUCCESS, r.1.2), w)
  else
    ((c.KERN_FAILURE, r.1.2), w)

/-- The handler `_ipconfig_get_packet`; the result carries the contents of
`packet_data` and `*packet_dataCnt` on return. -/
def _ipconfig_get_packet (c : Consts) (x : Externals ε) (_p : mach_port_t) (name : if_name_t)
    (packet_data : inline_data_t) (packet_dataCnt : Nat)
    (w : World ε) : (kern_return_t × inline_data_t × Nat) × World ε :=
  let r := x.get_if_packet name packet_data packet_dataCnt w.env
  let w := (w.emit (.get_if_packet name)).setEnv r.2
  if r.1.1 = c.TRUE then
    ((c.KERN_SUCCESS, r.1.2), w)
  else
    ((c.KERN_FAILURE, r.1.2), w)

/-- The handler `_ipconfig_set`: `set_if` is called with the request's
name, method, method data and length and a null fifth argument. -/
def _ipconfig_set (c : Consts) (x : Externals ε) (_p : mach_port_t) (name : if_name_t)
    (method : ipconfig_method_t) (method_data : inline_data_t) (method_data_len : Nat)
    (w : World ε) : Outcome × World ε :=
  if w.S_uid ≠ 0 then
    (⟨c.KERN_SUCCESS, some c.ipconfig_status_permission_denied_e⟩, w)
  else
    let r := x.set_if name method method_data method_data_len none w.env
    let w := (w.emit (.set_if name method method_data method_data_len none)).setEnv r.2
    (⟨c.KERN_SUCCESS, some r.1⟩, w)

/-- The handler `_ipconfig_set_verbose`. -/
def _ipconfig_set_verbose (c : Consts) (x : Externals ε) (_p : mach_port_t) (verbose : Int)
    (w : World ε) : Outcome × World ε :=
  if w.S_uid ≠ 0 then
    (⟨c.KERN_SUCCESS, some c.ipconfig_status_permission_denied_e⟩, w)
  else
    let r := x.set_verbose verbose w.env
    let w := (w.emit (.set_verbose verbose)).setEnv r.2
    (⟨c.KERN_SUCCESS, some r.1⟩, w)

/-! ## `S_ipconfig_server` (lines 196-255) -/

/-- From the label `done_once` to the return (lines 248-254): one `my_log`
entry when `r` is not `MACH_MSG_SUCCESS`. -/
def done_once (c : Consts) (x : Externals ε) (r : mach_msg_return_t) (w : World ε) : World ε :=
  if r ≠ c.MACH_MSG_SUCCESS then
    w.emit (.my_log c.LOG_INFO ("IPConfiguration msg_send: " ++ x.mach_error_string r))
  else
    w

/-- Lines 246-247: `mach_msg_destroy` on the reply when its `COMPLEX` bit
is set. -/
def destroy_reply (c : Consts) (x : Externals ε) (reply : mig_reply_error_t)
    (w : World ε) : World ε :=
  if reply.Head.msgh_bits &&& c.MACH_MSGH_BITS_COMPLEX ≠ 0 then
    (w.emit (.mach_msg_destroy reply.Head)).setEnv (x.mach_msg_destroy reply.Head w.env)
  else
    w

/-- Lines 214-223: for a reply without the `COMPLEX` bit, null the reply's
destination on `MIG_NO_REPLY`, and otherwise destroy a `COMPLEX` request
(its remote port nulled first) when the return code is not `KERN_SUCCESS`.
The result is the request, the reply and the world afterwards. -/
def prepare_reply (c : Consts) (x : Externals ε) (request reply : mig_reply_error_t)
    (w : World ε) : mig_reply_error_t × mig_reply_error_t × World ε :=
  if reply.Head.msgh_bits &&& c.MACH_MSGH_BITS_COMPLEX = 0 then
    if reply.RetCode = c.MIG_NO_REPLY then
      (request,
        { reply with Head := { reply.Head with msgh_remote_port := c.MACH_PORT_NULL } }, w)
    else if reply.RetCode ≠ c.KERN_SUCCESS ∧
        request.Head.msgh_bits &&& c.MACH_MSGH_BITS_COMPLEX ≠ 0 then
      let request : mig_reply_error_t :=
        { request with Head := { request.Head with msgh_remote_port := c.MACH_PORT_NULL } }
      (request, reply,
        (w.emit (.mach_msg_destroy request.Head)).setEnv
          (x.mach_msg_destroy request.Head w.env))
    else
      (request, reply, w)
  else
    (request, reply, w)

/-- The `option` argument of the `mach_msg` call (lines 235-238):
`MACH_SEND_MSG|options` when the remote bits of the reply say
`MACH_MSG_TYPE_MOVE_SEND_ONCE`, `MACH_SEND_MSG|MACH_SEND_TIMEOUT|options`
otherwise, with `options = 0`. -/
def send_option (c : Consts) (reply : mig_reply_error_t) : Nat :=
  let options : Nat := 0
  if reply.Head.msgh_bits &&& c.MACH_MSGH_BITS_REMOTE_MASK = c.MACH_MSG_TYPE_MOVE_SEND_ONCE then
    c.MACH_SEND_MSG ||| options
  else
    (c.MACH_SEND_MSG ||| c.MACH_SEND_TIMEOUT) ||| options

/-- The `mach_msg` call of lines 234-240 as a recorded call. -/
def send_event (c : Consts) (reply : mig_reply_error_t) : Event :=
  .mach_msg reply.Head (send_option c reply) reply.Head.msgh_size 0 c.MACH_PORT_NULL
    c.MACH_MSG_TIMEOUT_NONE c.MACH_PORT_NULL

/-- What the `mach_msg` call of lines 234-240 returns, and the environment
state it leaves, when made in environment state `e`. -/
def send_call (c : Consts) (x : Externals ε) (reply : mig_reply_error_t) (e : ε) :
    mach_msg_return_t × ε :=
  x.mach_msg reply.Head (send_option c reply) reply.Head.msgh_size 0 c.MACH_PORT_NULL
    c.MACH_MSG_TIMEOUT_NONE c.MACH_PORT_NULL e

/-- Lines 233-254: send the reply when its destination is not null, with
`MACH_SEND_TIMEOUT` unless the destination is a send-once right; leave
through `done_once` with the send result unless it is
`MACH_SEND_INVALID_DEST` or `MACH_SEND_TIMED_OUT`; otherwise, and when no
send was made, destroy a `COMPLEX` reply and leave with `MACH_MSG_SUCCESS`.
The send-only `mach_msg` is taken to leave the header it is given as it
is. -/
def send_reply (c : Consts) (x : Externals ε) (reply : mig_reply_error_t)
    (w : World ε) : World ε :=
  let r : mach_msg_return_t := c.MACH_MSG_SUCCESS
  if reply.Head.msgh_remote_port ≠ c.MACH_PORT_NULL then
    let s := send_call c x reply w.env
    let w := (w.emit (send_event c reply)).setEnv s.2
    let r : mach_msg_return_t := s.1
    if r ≠ c.MACH_SEND_INVALID_DEST ∧ r ≠ c.MACH_SEND_TIMED_OUT then
      done_once c x r w
    else
      let r : mach_msg_return_t := c.MACH_MSG_SUCCESS
      done_once c x r (destroy_reply c x reply w)
  else
    done_once c x r (destroy_reply c x reply w)

/-- The reply step of `S_ipconfig_server` (lines 213-254): `prepare_reply`
followed by `send_reply` on the reply it leaves.  The result is the
request, the reply and the world at the return. -/
def reply_step (c : Consts) (x : Externals ε) (request reply : mig_reply_error_t)
    (w : World ε) : mig_reply_error_t × mig_reply_error_t × World ε :=
  let p := prepare_reply c x request reply w
  (p.1, p.2.1, send_reply c x p.2.1 p.2.2)

/-- The function `S_ipconfig_server`.  The dispatcher `ipconfig_server` is
generated code outside the file: given the request and the world it returns
whether it knew the message, the reply it built, and the world after the
handler ran. -/
def S_ipconfig_server (c : Consts) (x : Externals ε)
    (ipconfig_server : mig_reply_error_t → World ε → (boolean_t × mig_reply_error_t) × World ε)
    (msg : mig_reply_error_t) (w : World ε) : mig_reply_error_t × mig_reply_error_t × World ε :=
  let request := msg
  let w := read_trailer c request w
  let d := ipconfig_server request w
  let reply := d.1.2
  let w :=
    if d.1.1 = c.FALSE then
      d.2.emit (.my_log c.LOG_INFO
        ("IPConfiguration: unknown message ID (" ++ toString request.Head.msgh_id ++ ") received"))
    else
      d.2
  reply_step c x request reply w

/-! ## `server_init` (lines 257-296) -/

/-- Lines 285-295 of `server_init`: create the port, add its run-loop
source, and register the port under `IPCONFIG_SERVER`. -/
def server_init_create (c : Consts) (x : Externals ε) (w : World ε) : World ε :=
  let r := x.CFMachPortCreate w.env
  let ipconfigd_port := r.1
  let w := (w.emit .CFMachPortCreate).setEnv r.2
  let r := x.CFMachPortCreateRunLoopSource ipconfigd_port w.env
  let rls := r.1
  let w := (w.emit (.CFMachPortCreateRunLoopSource ipconfigd_port)).setEnv r.2
  let rl := x.CFRunLoopGetCurrent w.env
  let w := (w.emit (.CFRunLoopAddSource rl rls)).setEnv (x.CFRunLoopAddSource rl rls w.env)
  let w := (w.emit (.CFRelease rls)).setEnv (x.CFRelease rls w.env)
  let port := x.CFMachPortGetPort ipconfigd_port w.env
  let r := x.bootstrap_register x.bootstrap_port c.IPCONFIG_SERVER port w.env
  let status := r.1
  let w := (w.emit (.bootstrap_register c.IPCONFIG_SERVER port)).setEnv r.2
  if status ≠ c.BOOTSTRAP_SUCCESS then
    w.emit (.mach_error "bootstrap_register" status)
  else
    w

/-- The function `server_init`. -/
def server_init (c : Consts) (x : Externals ε) (w : World ε) : World ε :=
  let active : boolean_t := c.FALSE
  let r := x.bootstrap_status x.bootstrap_port c.IPCONFIG_SERVER active w.env
  let status := r.1.1
  let active := r.1.2
  let w := (w.emit (.bootstrap_status c.IPCONFIG_SERVER)).setEnv r.2
  if status = c.BOOTSTRAP_SUCCESS then
    if active ≠ 0 then
      w.emit (.fprintf_stderr ("\"" ++ c.IPCONFIG_SERVER ++ "\" is currently active.\n"))
    else
      server_init_create c x w
  else if status = c.BOOTSTRAP_UNKNOWN_SERVICE then
    server_init_create c x w
  else
    w.emit (.fprintf_stderr ("bootstrap_status(): " ++ x.mach_error_string status ++ "\n"))

/-! ## Names used in the statements -/

/-- The request with its remote port nulled, as line 220 leaves it. -/
def null_remote_port (c : Consts) (request : mig_reply_error_t) : mig_reply_error_t :=
  { request with Head := { request.Head with msgh_remote_port := c.MACH_PORT_NULL } }

/-- The `bootstrap_status` call of line 266 made in environment state `e`:
the status it returns, the value it leaves in `active`, and the environment
state afterwards. -/
def lookup (c : Consts) (x : Externals ε) (e : ε) : (kern_return_t × boolean_t) × ε :=
  x.bootstrap_status x.bootstrap_port c.IPCONFIG_SERVER c.FALSE e

/-! ## A concrete environment -/

/-- A small concrete environment for evaluating the model: the environment
state is whether the service name is registered with the name service; the
subsystem accepts everything, `mach_msg` returns `send_result`,
`bootstrap_status` reports the registration state and `bootstrap_register`
sets it. -/
def sim (send_result : mach_msg_return_t) : Externals Bool where
  wait_if := fun _ e => (1, e)
  wait_all := fun e => e
  get_if_name := fun _ _ e => ((1, "en0"), e)
  get_if_addr := fun _ _ e => ((1, 0x0a000001), e)
  get_if_count := fun e => (1, e)
  get_if_option := fun _ _ d n e => ((1, d, n), e)
  get_if_packet := fun _ d n e => ((1, d, n), e)
  set_if := fun _ _ _ _ _ e => (0, e)
  set_verbose := fun _ e => (0, e)
  mach_msg := fun _ _ _ _ _ _ _ e => (send_result, e)
  mach_msg_destroy := fun _ e => e
  mach_error_string := fun _ => "(ipc/send) error"
  bootstrap_port := 7
  bootstrap_status := fun _ _ _ e => ((0, if e then 1 else 0), e)
  bootstrap_register := fun _ _ _ _ => (0, true)
  CFMachPortCreate := fun e => (1, e)
  CFMachPortCreateRunLoopSource := fun _ e => (2, e)
  CFRunLoopGetCurrent := fun _ => 3
  CFRunLoopAddSource := fun _ _ e => e
  CFRelease := fun _ e => e
  CFMachPortGetPort := fun _ _ => 0x1003

/-- A world of `sim` in which the stored sender is `uid`, nothing is
registered and nothing has been called. -/
def world0 (uid : uid_t) : World Bool :=
  { S_uid := uid, S_gid := 20, env := false, trace := [] }

/-- A simple request from uid 0 with a reply port, for evaluating the reply
step. -/
def request0 : mig_reply_error_t where
  Head := { msgh_bits := 0x1513, msgh_size := 36, msgh_remote_port := 0x2003,
            msgh_local_port := 0x1003, msgh_id := 32000 }
  RetCode := 0
  trailer := { msgh_trailer_type := 0, msgh_trailer_size := 20, msgh_seqno := 0,
               msgh_sender := { val0 := 0, val1 := 0 } }

/-- A reply to `request0` with the given header bits, destination and
return code. -/
def reply0 (bits : Nat) (dest : mach_port_t) (ret : kern_return_t) : mig_reply_error_t where
  Head := { msgh_bits := bits, msgh_size := 36, msgh_remote_port := dest,
            msgh_local_port := 0, msgh_id := 32100 }
  RetCode := ret
  trailer := { msgh_trailer_type := 0, msgh_trailer_size := 0, msgh_seqno := 0,
               msgh_sender := { val0 := 0, val1 := 0 } }

/-- The request `request0` with the `COMPLEX` bit set. -/
def request0_complex : mig_reply_error_t :=
  { request0 with Head := { request0.Head with msgh_bits := 0x80001513 } }

/-- A world of `sim` in which the service name is already registered. -/
def world_registered : World Bool :=
  { S_uid := 0, S_gid := 0, env := true, trace := [] }

/-! ## Handlers and the sender identity -/

/-- C1: `_ipconfig_set` and `_ipconfig_set_verbose` always return
`KERN_SUCCESS`, and the status they write is
`ipconfig_status_permission_denied_e` when `S_uid` is not 0 and otherwise
exactly the status `set_if` (called with the request's name, method, method
data, length and a null fifth argument) or `set_verbose` (called with the
request's verbose flag) returns. -/
theorem set_handlers_status (c : Consts) (x : Externals ε) (p : mach_port_t)
    (name : if_name_t) (method : ipconfig_method_t) (method_data : inline_data_t)
    (method_data_len : Nat) (verbose : Int) (w : World ε) :
    (_ipconfig_set c x p name method method_data method_data_len w).1.RetCode
        = c.KERN_SUCCESS ∧
    (_ipconfig_set_verbose c x p verbose w).1.RetCode = c.KERN_SUCCESS ∧
    (_ipconfig_set c x p name method method_data method_data_len w).1.status
        = (if w.S_uid ≠ 0 then some c.ipconfig_status_permission_denied_e
           else some (x.set_if name method method_data method_data_len none w.env).1) ∧
    (_ipconfig_set_verbose c x p verbose w).1.status
        = (if w.S_uid ≠ 0 then some c.ipconfig_status_permission_denied_e
           else some (x.set_verbose verbose w.env).1) := by
  unfold _ipconfig_set _ipconfig_set_verbose
  by_cases h : w.S_uid = 0 <;> simp [h]

/-- C2 (as stated, refuted): for the sender uid 501 and for the unresolved
sender `-1`, `_ipconfig_wait_if` on "en0" and `_ipconfig_wait_all` return
`KERN_FAILURE` and write no status at all, so the reply status is not
`ipconfig_status_permission_denied_e`. -/
theorem wait_handlers_not_permission_denied :
    (_ipconfig_wait_if mach (sim 0) 0 "en0" (world0 501)).1 = ⟨mach.KERN_FAILURE, none⟩ ∧
    (_ipconfig_wait_all mach (sim 0) 0 (world0 501)).1 = ⟨mach.KERN_FAILURE, none⟩ ∧
    (_ipconfig_wait_if mach (sim 0) 0 "en0" (world0 (to_u32 (-1)))).1
      = ⟨mach.KERN_FAILURE, none⟩ ∧
    (_ipconfig_wait_all mach (sim 0) 0 (world0 (to_u32 (-1)))).1
      = ⟨mach.KERN_FAILURE, none⟩ ∧
    (_ipconfig_wait_if mach (sim 0) 0 "en0" (world0 501)).1.status
      ≠ some mach.ipconfig_status_permission_denied_e ∧
    (_ipconfig_wait_all mach (sim 0) 0 (world0 501)).1.status
      ≠ some mach.ipconfig_status_permission_denied_e := by
  simp [_ipconfig_wait_if, _ipconfig_wait_all, world0, World.emit, to_u32]

/-- C2 (amended): for every interface name and every sender uid different
from 0, `_ipconfig_wait_if` and `_ipconfig_wait_all` return `KERN_FAILURE`
and write no status, and the calls they make contain no call into the
configuration subsystem. -/
theorem wait_handlers_denied (c : Consts) (x : Externals ε) (p : mach_port_t)
    (name : if_name_t) (w : World ε) (h : w.S_uid ≠ 0) :
    (_ipconfig_wait_if c x p name w).1 = ⟨c.KERN_FAILURE, none⟩ ∧
    (_ipconfig_wait_all c x p w).1 = ⟨c.KERN_FAILURE, none⟩ ∧
    (((_ipconfig_wait_if c x p name w).2.since w).filter Event.isSubsystemCall = []) ∧
    (((_ipconfig_wait_all c x p w).2.since w).filter Event.isSubsystemCall = []) := by
  simp [_ipconfig_wait_if, _ipconfig_wait_all, World.emit, World.since, h,
    Event.isSubsystemCall]

/-- Witness for C2 (amended): the sender uid 501 asking to wait for "en0". -/
theorem wait_handlers_denied_witness :
    (world0 501).S_uid ≠ 0 ∧
    (_ipconfig_wait_if mach (sim 0) 0 "en0" (world0 501)).1 = ⟨mach.KERN_FAILURE, none⟩ ∧
    (_ipconfig_wait_all mach (sim 0) 0 (world0 501)).1 = ⟨mach.KERN_FAILURE, none⟩ ∧
    (((_ipconfig_wait_if mach (sim 0) 0 "en0" (world0 501)).2.since (world0 501)).filter
      Event.isSubsystemCall = []) ∧
    (((_ipconfig_wait_all mach (sim 0) 0 (world0 501)).2.since (world0 501)).filter
      Event.isSubsystemCall = []) :=
  ⟨by decide, wait_handlers_denied mach (sim 0) 0 "en0" (world0 501) (by decide)⟩

/-- C3: for every sender uid different from 0, none of `_ipconfig_wait_if`,
`_ipconfig_wait_all`, `_ipconfig_set`, `_ipconfig_set_verbose` calls the
configuration subsystem: the calls each makes contain no subsystem call and
the environment state is the one it started from. -/
theorem denied_handlers_make_no_subsystem_call (c : Consts) (x : Externals ε)
    (p : mach_port_t) (name : if_name_t) (method : ipconfig_method_t)
    (method_data : inline_data_t) (method_data_len : Nat) (verbose : Int)
    (w : World ε) (h : w.S_uid ≠ 0) :
    (((_ipconfig_wait_if c x p name w).2.since w).filter Event.isSubsystemCall = [] ∧
      (_ipconfig_wait_if c x p name w).2.env = w.env) ∧
    (((_ipconfig_wait_all c x p w).2.since w).filter Event.isSubsystemCall = [] ∧
      (_ipconfig_wait_all c x p w).2.env = w.env) ∧
    (((_ipconfig_set c x p name method method_data method_data_len w).2.since w).filter
        Event.isSubsystemCall = [] ∧
      (_ipconfig_set c x p name method method_data method_data_len w).2.env = w.env) ∧
    (((_ipconfig_set_verbose c x p verbose w).2.since w).filter Event.isSubsystemCall = [] ∧
      (_ipconfig_set_verbose c x p verbose w).2.env = w.env) := by
  simp [_ipconfig_wait_if, _ipconfig_wait_all, _ipconfig_set, _ipconfig_set_verbose,
    World.emit, World.since, h, Event.isSubsystemCall]

/-- Witness for C3: the sender uid 501. -/
theorem denied_handlers_make_no_subsystem_call_witness :
    (world0 501).S_uid ≠ 0 ∧
    ((((_ipconfig_wait_if mach (sim 0) 0 "en0" (world0 501)).2.since (world0 501)).filter
        Event.isSubsystemCall = [] ∧
      (_ipconfig_wait_if mach (sim 0) 0 "en0" (world0 501)).2.env = (world0 501).env) ∧
    (((_ipconfig_wait_all mach (sim 0) 0 (world0 501)).2.since (world0 501)).filter
        Event.isSubsystemCall = [] ∧
      (_ipconfig_wait_all mach (sim 0) 0 (world0 501)).2.env = (world0 501).env) ∧
    (((_ipconfig_set mach (sim 0) 0 "en0" 3 [10, 0, 0, 2] 4 (world0 501)).2.since
        (world0 501)).filter Event.isSubsystemCall = [] ∧
      (_ipconfig_set mach (sim 0) 0 "en0" 3 [10, 0, 0, 2] 4 (world0 501)).2.env
        = (world0 501).env) ∧
    (((_ipconfig_set_verbose mach (sim 0) 0 1 (world0 501)).2.since (world0 501)).filter
        Event.isSubsystemCall = [] ∧
      (_ipconfig_set_verbose mach (sim 0) 0 1 (world0 501)).2.env = (world0 501).env)) :=
  ⟨by decide,
    denied_handlers_make_no_subsystem_call mach (sim 0) 0 "en0" 3 [10, 0, 0, 2] 4 1
      (world0 501) (by decide)⟩

/-- C4: after `read_trailer` the stored identity depends on the current
message only: it is `(msgh_sender.val[0], msgh_sender.val[1])` when the
trailer type is `MACH_MSG_TRAILER_FORMAT_0` and the trailer size is at
least `MACH_MSG_TRAILER_FORMAT_0_SIZE`, and `(-1, -1)` otherwise, whatever
identity was stored before; and when the trailer fails that test `S_uid` is
not 0. -/
theorem read_trailer_identity (c : Consts) (request : mig_reply_error_t) (w : World ε) :
    ((read_trailer c request w).S_uid, (read_trailer c request w).S_gid)
      = (if request.trailer.msgh_trailer_type = c.MACH_MSG_TRAILER_FORMAT_0 ∧
            request.trailer.msgh_trailer_size ≥ c.MACH_MSG_TRAILER_FORMAT_0_SIZE then
          (request.trailer.msgh_sender.val0, request.trailer.msgh_sender.val1)
        else
          (to_u32 (-1), to_u32 (-1))) ∧
    (∀ (uid : uid_t) (gid : gid_t),
      (read_trailer c request (w.withId uid gid)).S_uid = (read_trailer c request w).S_uid ∧
      (read_trailer c request (w.withId uid gid)).S_gid = (read_trailer c request w).S_gid) ∧
    (if request.trailer.msgh_trailer_type = c.MACH_MSG_TRAILER_FORMAT_0 ∧
          request.trailer.msgh_trailer_size ≥ c.MACH_MSG_TRAILER_FORMAT_0_SIZE then
        True
      else
        (read_trailer c request w).S_uid = 4294967295 ∧ (read_trailer c request w).S_uid ≠ 0) := by
  have hs : to_u32 (-1) = 4294967295 := by decide
  unfold read_trailer World.withId
  by_cases h : request.trailer.msgh_trailer_type = c.MACH_MSG_TRAILER_FORMAT_0 ∧
      request.trailer.msgh_trailer_size ≥ c.MACH_MSG_TRAILER_FORMAT_0_SIZE
  · simp [h]
  · simp only [h, if_false, hs]
    simp

/-- C5: the seven handlers `_ipconfig_config_if`, `_ipconfig_config_all`,
`_ipconfig_if_name`, `_ipconfig_if_addr`, `_ipconfig_if_count`,
`_ipconfig_get_option`, `_ipconfig_get_packet` do not consult the stored
sender identity: run with any other `(S_uid, S_gid)` on the same arguments
and environment, each returns the same code and outputs and leaves the same
world (same calls, same environment state), the identity apart. -/
theorem unprivileged_handlers_ignore_identity (c : Consts) (x : Externals ε)
    (p : mach_port_t) (name : if_name_t) (intface : Int) (addr : Nat) (option_code : Int)
    (data : inline_data_t) (dataCnt : Nat) (w : World ε) (uid : uid_t) (gid : gid_t) :
    _ipconfig_config_if c p name (w.withId uid gid)
      = ((_ipconfig_config_if c p name w).1, (_ipconfig_config_if c p name w).2.withId uid gid) ∧
    _ipconfig_config_all c p (w.withId uid gid)
      = ((_ipconfig_config_all c p w).1, (_ipconfig_config_all c p w).2.withId uid gid) ∧
    _ipconfig_if_name c x p intface name (w.withId uid gid)
      = ((_ipconfig_if_name c x p intface name w).1,
          (_ipconfig_if_name c x p intface name w).2.withId uid gid) ∧
    _ipconfig_if_addr c x p name addr (w.withId uid gid)
      = ((_ipconfig_if_addr c x p name addr w).1,
          (_ipconfig_if_addr c x p name addr w).2.withId uid gid) ∧
    _ipconfig_if_count c x p (w.withId uid gid)
      = ((_ipconfig_if_count c x p w).1, (_ipconfig_if_count c x p w).2.withId uid gid) ∧
    _ipconfig_get_option c x p name option_code data dataCnt (w.withId uid gid)
      = ((_ipconfig_get_option c x p name option_code data dataCnt w).1,
          (_ipconfig_get_option c x p name option_code data dataCnt w).2.withId uid gid) ∧
    _ipconfig_get_packet c x p name data dataCnt (w.withId uid gid)
      = ((_ipconfig_get_packet c x p name data dataCnt w).1,
          (_ipconfig_get_packet c x p name data dataCnt w).2.withId uid gid) := by
  refine ⟨rfl, rfl, ?_, ?_, rfl, ?_, ?_⟩
  · unfold _ipconfig_if_name
    by_cases h : (x.get_if_name intface name w.env).1.1 = c.TRUE <;>
      simp [h, World.withId, World.emit, World.setEnv]
  · unfold _ipconfig_if_addr
    by_cases h : (x.get_if_addr name addr w.env).1.1 = c.TRUE <;>
      simp [h, World.withId, World.emit, World.setEnv]
  · unfold _ipconfig_get_option
    by_cases h : (x.get_if_option name option_code data dataCnt w.env).1.1 = c.TRUE <;>
      simp [h, World.withId, World.emit, World.setEnv]
  · unfold _ipconfig_get_packet
    by_cases h : (x.get_if_packet name data dataCnt w.env).1.1 = c.TRUE <;>
      simp [h, World.withId, World.emit, World.setEnv]

/-! ## The reply step -/

/-- The function `S_ipconfig_server` is `read_trailer`, the dispatcher, the
"unknown message ID" entry when the dispatcher returns `FALSE`, and then the
reply step on the reply the dispatcher built. -/
theorem S_ipconfig_server_reply_step (c : Consts) (x : Externals ε)
    (ipconfig_server : mig_reply_error_t → World ε → (boolean_t × mig_reply_error_t) × World ε)
    (msg : mig_reply_error_t) (w : World ε) :
    S_ipconfig_server c x ipconfig_server msg w
      = reply_step c x msg (ipconfig_server msg (read_trailer c msg w)).1.2
          (if (ipconfig_server msg (read_trailer c msg w)).1.1 = c.FALSE then
            (ipconfig_server msg (read_trailer c msg w)).2.emit
              (.my_log c.LOG_INFO
                ("IPConfiguration: unknown message ID (" ++ toString msg.Head.msgh_id
                  ++ ") received"))
          else
            (ipconfig_server msg (read_trailer c msg w)).2) :=
  rfl

/-- C6: in the reply step, when the reply has its `COMPLEX` bit clear and
its return code is `MIG_NO_REPLY`, the reply's destination is set to
`MACH_PORT_NULL`, and the step makes no call at all: no `mach_msg`, no
`mach_msg_destroy` on the reply or the request, no `my_log`; the request and
the environment state are as they were. -/
theorem no_reply_suppressed (c : Consts) (x : Externals ε) (request reply : mig_reply_error_t)
    (w : World ε) (hs : reply.Head.msgh_bits &&& c.MACH_MSGH_BITS_COMPLEX = 0)
    (hn : reply.RetCode = c.MIG_NO_REPLY) :
    (reply_step c x request reply w).2.1.Head.msgh_remote_port = c.MACH_PORT_NULL ∧
    (reply_step c x request reply w).2.2.since w = [] ∧
    (reply_step c x request reply w).2.2.env = w.env ∧
    (reply_step c x request reply w).1 = request := by
  simp [reply_step, prepare_reply, send_reply, destroy_reply, done_once, World.since, hs, hn]

/-- Witness for C6: a simple reply with return code `MIG_NO_REPLY`. -/
theorem no_reply_suppressed_witness :
    (reply0 0x12 0x2003 (-305)).Head.msgh_bits &&& mach.MACH_MSGH_BITS_COMPLEX = 0 ∧
    (reply0 0x12 0x2003 (-305)).RetCode = mach.MIG_NO_REPLY ∧
    ((reply_step mach (sim 0) request0 (reply0 0x12 0x2003 (-305)) (world0 0)).2.1.Head.msgh_remote_port
        = mach.MACH_PORT_NULL ∧
      (reply_step mach (sim 0) request0 (reply0 0x12 0x2003 (-305)) (world0 0)).2.2.since (world0 0)
        = [] ∧
      (reply_step mach (sim 0) request0 (reply0 0x12 0x2003 (-305)) (world0 0)).2.2.env
        = (world0 0).env ∧
      (reply_step mach (sim 0) request0 (reply0 0x12 0x2003 (-305)) (world0 0)).1 = request0) :=
  ⟨by decide, by decide,
    no_reply_suppressed mach (sim 0) request0 (reply0 0x12 0x2003 (-305)) (world0 0)
      (by decide) (by decide)⟩

/-- C7 (as stated, refuted): a reply with the `COMPLEX` bit set and a
non-null destination whose send fails with `0x10000002`
(`MACH_SEND_INVALID_DATA`, neither `MACH_SEND_INVALID_DEST` nor
`MACH_SEND_TIMED_OUT`): the step sends, logs, and returns without any
`mach_msg_destroy`. -/
theorem reply_not_destroyed_on_other_failure :
    (reply0 0x80000012 0x2003 0).Head.msgh_bits &&& mach.MACH_MSGH_BITS_COMPLEX ≠ 0 ∧
    (send_call mach (sim 0x10000002) (reply0 0x80000012 0x2003 0) (world0 0).env).1
      ≠ mach.MACH_MSG_SUCCESS ∧
    ((reply_step mach (sim 0x10000002) request0 (reply0 0x80000012 0x2003 0)
        (world0 0)).2.2.since (world0 0)).filter Event.isDestroy = [] ∧
    (reply_step mach (sim 0x10000002) request0 (reply0 0x80000012 0x2003 0)
        (world0 0)).2.2.since (world0 0)
      = [send_event mach (reply0 0x80000012 0x2003 0),
         .my_log 6 "IPConfiguration msg_send: (ipc/send) error"] := by
  refine ⟨by decide, by decide, ?_, ?_⟩ <;>
    simp [reply_step, prepare_reply, send_reply, destroy_reply, done_once, World.since,
      World.emit, World.setEnv, send_call, send_event, send_option, reply0, request0, world0,
      mach, sim, Event.isDestroy]

/-- C7 (amended): in the reply step, when the reply has its `COMPLEX` bit
set, the reply is destroyed (`mach_msg_destroy` on the reply, once, as the
last call before the return) if its destination is null, so that no send is
made, or if the send returns `MACH_SEND_INVALID_DEST` or
`MACH_SEND_TIMED_OUT`; after any other send result the step makes no
`mach_msg_destroy`. -/
theorem complex_reply_destroyed (c : Consts) (x : Externals ε)
    (request reply : mig_reply_error_t) (w : World ε)
    (hc : reply.Head.msgh_bits &&& c.MACH_MSGH_BITS_COMPLEX ≠ 0) :
    ((reply_step c x request reply w).2.2.since w).filter Event.isDestroy
      = (if reply.Head.msgh_remote_port = c.MACH_PORT_NULL ∨
            (send_call c x reply w.env).1 = c.MACH_SEND_INVALID_DEST ∨
            (send_call c x reply w.env).1 = c.MACH_SEND_TIMED_OUT then
          [.mach_msg_destroy reply.Head]
        else
          []) ∧
    (reply_step c x request reply w).2.2.since w
      = (if reply.Head.msgh_remote_port = c.MACH_PORT_NULL then
          [.mach_msg_destroy reply.Head]
        else if (send_call c x reply w.env).1 = c.MACH_SEND_INVALID_DEST ∨
            (send_call c x reply w.env).1 = c.MACH_SEND_TIMED_OUT then
          [send_event c reply, .mach_msg_destroy reply.Head]
        else if (send_call c x reply w.env).1 = c.MACH_MSG_SUCCESS then
          [send_event c reply]
        else
          [send_event c reply,
           .my_log c.LOG_INFO
             ("IPConfiguration msg_send: " ++ x.mach_error_string (send_call c x reply w.env).1)])
    := by
  have hp : prepare_reply c x request reply w = (request, reply, w) := by
    simp [prepare_reply, hc]
  simp only [reply_step, hp, send_reply]
  by_cases h0 : reply.Head.msgh_remote_port = c.MACH_PORT_NULL
  · simp [h0, destroy_reply, done_once, World.since, World.emit, World.setEnv, hc,
      Event.isDestroy]
  · by_cases h1 : (send_call c x reply w.env).1 = c.MACH_SEND_INVALID_DEST
    · simp [h0, h1, destroy_reply, done_once, World.since, World.emit, World.setEnv, hc,
        Event.isDestroy, send_event]
    · by_cases h2 : (send_call c x reply w.env).1 = c.MACH_SEND_TIMED_OUT
      · simp [h0, h1, h2, destroy_reply, done_once, World.since, World.emit, World.setEnv, hc,
          Event.isDestroy, send_event]
      · by_cases h3 : (send_call c x reply w.env).1 = c.MACH_MSG_SUCCESS
        · have h1s := h1
          have h2s := h2
          rw [h3] at h1s h2s
          simp [h0, h1s, h2s, h3, done_once, World.since, World.emit, World.setEnv,
            Event.isDestroy, send_event]
        · simp [h0, h1, h2, h3, done_once, World.since, World.emit, World.setEnv,
            Event.isDestroy, send_event]

/-- Witness for C7 (amended): a `COMPLEX` reply whose send returns
`MACH_SEND_INVALID_DEST`. -/
theorem complex_reply_destroyed_witness :
    (reply0 0x80000012 0x2003 0).Head.msgh_bits &&& mach.MACH_MSGH_BITS_COMPLEX ≠ 0 ∧
    (((reply_step mach (sim 0x10000003) request0 (reply0 0x80000012 0x2003 0)
          (world0 0)).2.2.since (world0 0)).filter Event.isDestroy
        = (if (reply0 0x80000012 0x2003 0).Head.msgh_remote_port = mach.MACH_PORT_NULL ∨
              (send_call mach (sim 0x10000003) (reply0 0x80000012 0x2003 0) (world0 0).env).1
                = mach.MACH_SEND_INVALID_DEST ∨
              (send_call mach (sim 0x10000003) (reply0 0x80000012 0x2003 0) (world0 0).env).1
                = mach.MACH_SEND_TIMED_OUT then
            [.mach_msg_destroy (reply0 0x80000012 0x2003 0).Head]
          else
            []) ∧
      (reply_step mach (sim 0x10000003) request0 (reply0 0x80000012 0x2003 0)
          (world0 0)).2.2.since (world0 0)
        = (if (reply0 0x80000012 0x2003 0).Head.msgh_remote_port = mach.MACH_PORT_NULL then
            [.mach_msg_destroy (reply0 0x80000012 0x2003 0).Head]
          else if (send_call mach (sim 0x10000003) (reply0 0x80000012 0x2003 0)
                (world0 0).env).1 = mach.MACH_SEND_INVALID_DEST ∨
              (send_call mach (sim 0x10000003) (reply0 0x80000012 0x2003 0) (world0 0).env).1
                = mach.MACH_SEND_TIMED_OUT then
            [send_event mach (reply0 0x80000012 0x2003 0),
             .mach_msg_destroy (reply0 0x80000012 0x2003 0).Head]
          else if (send_call mach (sim 0x10000003) (reply0 0x80000012 0x2003 0)
                (world0 0).env).1 = mach.MACH_MSG_SUCCESS then
            [send_event mach (reply0 0x80000012 0x2003 0)]
          else
            [send_event mach (reply0 0x80000012 0x2003 0),
             .my_log mach.LOG_INFO
               ("IPConfiguration msg_send: " ++ (sim 0x10000003).mach_error_string
                 (send_call mach (sim 0x10000003) (reply0 0x80000012 0x2003 0)
                   (world0 0).env).1)])) :=
  ⟨by decide,
    complex_reply_destroyed mach (sim 0x10000003) request0 (reply0 0x80000012 0x2003 0)
      (world0 0) (by decide)⟩

/-- C8 (as stated, refuted): with a return code `KERN_FAILURE` and a
`COMPLEX` request, (1) a reply that is itself `COMPLEX` is sent and the
request is never destroyed, and (2) a simple reply whose destination is
already null makes the step destroy the request and attempt no send. -/
theorem request_cleanup_not_as_stated :
    ((reply0 0x80000012 0x2003 5).RetCode ≠ mach.KERN_SUCCESS ∧
      (reply0 0x80000012 0x2003 5).Head.msgh_bits &&& mach.MACH_MSGH_BITS_COMPLEX ≠ 0 ∧
      request0_complex.Head.msgh_bits &&& mach.MACH_MSGH_BITS_COMPLEX ≠ 0 ∧
      (reply_step mach (sim 0) request0_complex (reply0 0x80000012 0x2003 5)
          (world0 0)).2.2.since (world0 0)
        = [send_event mach (reply0 0x80000012 0x2003 5)] ∧
      ((reply_step mach (sim 0) request0_complex (reply0 0x80000012 0x2003 5)
          (world0 0)).2.2.since (world0 0)).filter Event.isDestroy = []) ∧
    ((reply0 0x12 0 5).RetCode ≠ mach.KERN_SUCCESS ∧
      (reply0 0x12 0 5).RetCode ≠ mach.MIG_NO_REPLY ∧
      (reply0 0x12 0 5).Head.msgh_bits &&& mach.MACH_MSGH_BITS_COMPLEX = 0 ∧
      request0_complex.Head.msgh_bits &&& mach.MACH_MSGH_BITS_COMPLEX ≠ 0 ∧
      (reply_step mach (sim 0) request0_complex (reply0 0x12 0 5) (world0 0)).2.2.since (world0 0)
        = [.mach_msg_destroy (null_remote_port mach request0_complex).Head] ∧
      ((reply_step mach (sim 0) request0_complex (reply0 0x12 0 5)
          (world0 0)).2.2.since (world0 0)).filter Event.isSend = []) := by
  have hb : (18 : Nat) &&& 2147483648 = 0 := by decide
  refine ⟨⟨by decide, by decide, by decide, ?_, ?_⟩,
    ⟨by decide, by decide, by decide, by decide, ?_, ?_⟩⟩ <;>
    simp [hb, reply_step, prepare_reply, send_reply, destroy_reply, done_once, World.since,
      World.emit, World.setEnv, send_call, send_event, send_option, reply0, request0,
      request0_complex, null_remote_port, world0, mach, sim, Event.isDestroy, Event.isSend]

/-- C8 (amended): in the reply step, when the reply has its `COMPLEX` bit
clear, its return code is neither `MIG_NO_REPLY` nor `KERN_SUCCESS`, and
the request has its `COMPLEX` bit set, the request is destroyed exactly once
(`mach_msg_destroy` on the request with its remote port nulled first, as
the first call of the step), the reply and its destination are left
unchanged, and a send of the reply is then attempted exactly when that
destination is not null. -/
theorem failed_complex_request_destroyed (c : Consts) (x : Externals ε)
    (request reply : mig_reply_error_t) (w : World ε)
    (hs : reply.Head.msgh_bits &&& c.MACH_MSGH_BITS_COMPLEX = 0)
    (hn : reply.RetCode ≠ c.MIG_NO_REPLY)
    (hk : reply.RetCode ≠ c.KERN_SUCCESS)
    (hr : request.Head.msgh_bits &&& c.MACH_MSGH_BITS_COMPLEX ≠ 0) :
    (reply_step c x request reply w).1 = null_remote_port c request ∧
    (reply_step c x request reply w).2.1 = reply ∧
    ((reply_step c x request reply w).2.2.since w).filter Event.isDestroy
      = [.mach_msg_destroy (null_remote_port c request).Head] ∧
    ((reply_step c x request reply w).2.2.since w).head?
      = some (.mach_msg_destroy (null_remote_port c request).Head) ∧
    ((reply_step c x request reply w).2.2.since w).filter Event.isSend
      = (if reply.Head.msgh_remote_port ≠ c.MACH_PORT_NULL then [send_event c reply]
         else []) := by
  have hp : prepare_reply c x request reply w
      = (null_remote_port c request, reply,
          (w.emit (.mach_msg_destroy (null_remote_port c request).Head)).setEnv
            (x.mach_msg_destroy (null_remote_port c request).Head w.env)) := by
    simp [prepare_reply, hs, hn, hk, hr, null_remote_port]
  refine ⟨by simp [reply_step, hp], by simp [reply_step, hp], ?_⟩
  simp only [reply_step, hp, send_reply]
  by_cases h0 : reply.Head.msgh_remote_port = c.MACH_PORT_NULL
  · simp [h0, destroy_reply, done_once, World.since, World.emit, World.setEnv, hs,
      Event.isDestroy, Event.isSend]
  · simp only [ne_eq, h0, not_false_eq_true, if_true, destroy_reply, hs, not_true_eq_false,
      if_false, done_once]
    split_ifs <;>
      simp [World.since, World.emit, World.setEnv, Event.isDestroy, Event.isSend, send_event]

/-- Witness for C8 (amended): a simple reply with return code
`KERN_FAILURE` to a `COMPLEX` request. -/
theorem failed_complex_request_destroyed_witness :
    (reply0 0x12 0x2003 5).Head.msgh_bits &&& mach.MACH_MSGH_BITS_COMPLEX = 0 ∧
    (reply0 0x12 0x2003 5).RetCode ≠ mach.MIG_NO_REPLY ∧
    (reply0 0x12 0x2003 5).RetCode ≠ mach.KERN_SUCCESS ∧
    request0_complex.Head.msgh_bits &&& mach.MACH_MSGH_BITS_COMPLEX ≠ 0 ∧
    ((reply_step mach (sim 0) request0_complex (reply0 0x12 0x2003 5) (world0 0)).1
        = null_remote_port mach request0_complex ∧
      (reply_step mach (sim 0) request0_complex (reply0 0x12 0x2003 5) (world0 0)).2.1
        = reply0 0x12 0x2003 5 ∧
      ((reply_step mach (sim 0) request0_complex (reply0 0x12 0x2003 5)
          (world0 0)).2.2.since (world0 0)).filter Event.isDestroy
        = [.mach_msg_destroy (null_remote_port mach request0_complex).Head] ∧
      ((reply_step mach (sim 0) request0_complex (reply0 0x12 0x2003 5)
          (world0 0)).2.2.since (world0 0)).head?
        = some (.mach_msg_destroy (null_remote_port mach request0_complex).Head) ∧
      ((reply_step mach (sim 0) request0_complex (reply0 0x12 0x2003 5)
          (world0 0)).2.2.since (world0 0)).filter Event.isSend
        = (if (reply0 0x12 0x2003 5).Head.msgh_remote_port ≠ mach.MACH_PORT_NULL then
            [send_event mach (reply0 0x12 0x2003 5)]
          else [])) :=
  ⟨by decide, by decide, by decide, by decide,
    failed_complex_request_destroyed mach (sim 0) request0_complex (reply0 0x12 0x2003 5)
      (world0 0) (by decide) (by decide) (by decide) (by decide)⟩

/-- C9: in the delivery step, when the send is attempted (the reply's
destination is not null), the step makes no `my_log` entry when the send
returns `MACH_SEND_INVALID_DEST`, `MACH_SEND_TIMED_OUT` or
`MACH_MSG_SUCCESS`, and exactly one, "IPConfiguration msg_send: " followed
by the error string of the send result, when it returns anything else. -/
theorem send_failure_logging (c : Consts) (x : Externals ε) (reply : mig_reply_error_t)
    (w : World ε) (hd : reply.Head.msgh_remote_port ≠ c.MACH_PORT_NULL) :
    ((send_reply c x reply w).since w).filter Event.isLog
      = (if (send_call c x reply w.env).1 = c.MACH_SEND_INVALID_DEST ∨
            (send_call c x reply w.env).1 = c.MACH_SEND_TIMED_OUT ∨
            (send_call c x reply w.env).1 = c.MACH_MSG_SUCCESS then
          []
        else
          [.my_log c.LOG_INFO
            ("IPConfiguration msg_send: "
              ++ x.mach_error_string (send_call c x reply w.env).1)]) ∧
    ((send_reply c x reply w).since w).filter Event.isSend = [send_event c reply] := by
  simp only [send_reply, ne_eq, hd, not_false_eq_true, if_true, done_once, destroy_reply]
  by_cases h1 : (send_call c x reply w.env).1 = c.MACH_SEND_INVALID_DEST
  · simp only [h1, not_true_eq_false, false_and, if_false, true_or, if_true]
    split_ifs <;>
      simp [World.since, World.emit, World.setEnv, Event.isLog, Event.isSend, send_event]
  · by_cases h2 : (send_call c x reply w.env).1 = c.MACH_SEND_TIMED_OUT
    · simp only [h2, not_true_eq_false, and_false, if_false, true_or, or_true, if_true]
      split_ifs <;>
        simp [World.since, World.emit, World.setEnv, Event.isLog, Event.isSend, send_event]
    · by_cases h3 : (send_call c x reply w.env).1 = c.MACH_MSG_SUCCESS
      · have h1s := h1
        have h2s := h2
        rw [h3] at h1s h2s
        simp [h1s, h2s, h3, World.since, World.emit, World.setEnv, Event.isLog, Event.isSend,
          send_event]
      · simp [h1, h2, h3, World.since, World.emit, World.setEnv, Event.isLog, Event.isSend,
          send_event]

/-- Witness for C9: a send that fails with `0x10000002`
(`MACH_SEND_INVALID_DATA`). -/
theorem send_failure_logging_witness :
    (reply0 0x12 0x2003 0).Head.msgh_remote_port ≠ mach.MACH_PORT_NULL ∧
    (((send_reply mach (sim 0x10000002) (reply0 0x12 0x2003 0) (world0 0)).since
          (world0 0)).filter Event.isLog
        = (if (send_call mach (sim 0x10000002) (reply0 0x12 0x2003 0) (world0 0).env).1
                = mach.MACH_SEND_INVALID_DEST ∨
              (send_call mach (sim 0x10000002) (reply0 0x12 0x2003 0) (world0 0).env).1
                = mach.MACH_SEND_TIMED_OUT ∨
              (send_call mach (sim 0x10000002) (reply0 0x12 0x2003 0) (world0 0).env).1
                = mach.MACH_MSG_SUCCESS then
            []
          else
            [.my_log mach.LOG_INFO
              ("IPConfiguration msg_send: "
                ++ (sim 0x10000002).mach_error_string
                  (send_call mach (sim 0x10000002) (reply0 0x12 0x2003 0) (world0 0).env).1)]) ∧
      ((send_reply mach (sim 0x10000002) (reply0 0x12 0x2003 0) (world0 0)).since
          (world0 0)).filter Event.isSend
        = [send_event mach (reply0 0x12 0x2003 0)]) :=
  ⟨by decide,
    send_failure_logging mach (sim 0x10000002) (reply0 0x12 0x2003 0) (world0 0) (by decide)⟩

/-! ## Startup -/

/-- The trace after `emit`. -/
theorem emit_trace (w : World ε) (e : Event) : (w.emit e).trace = w.trace ++ [e] := rfl

/-- The environment state after `emit`. -/
theorem emit_env (w : World ε) (e : Event) : (w.emit e).env = w.env := rfl

/-- The trace after `setEnv`. -/
theorem setEnv_trace (w : World ε) (e : ε) : (w.setEnv e).trace = w.trace := rfl

/-- The environment state after `setEnv`. -/
theorem setEnv_env (w : World ε) (e : ε) : (w.setEnv e).env = e := rfl

/-- The trace after a conditional `emit`. -/
theorem ite_emit_trace (p : Prop) [Decidable p] (w : World ε) (e : Event) :
    (if p then w.emit e else w).trace = w.trace ++ (if p then [e] else []) := by
  split_ifs <;> simp [emit_trace]

/-- The calls of `server_init_create` extend the trace and contain exactly
one `bootstrap_register` and a `CFMachPortCreate`. -/
theorem server_init_create_trace (c : Consts) (x : Externals ε) (w : World ε) :
    (server_init_create c x w).trace = w.trace ++ (server_init_create c x w).since w ∧
      (((server_init_create c x w).since w).filter Event.isRegister).length = 1 ∧
      Event.CFMachPortCreate ∈ (server_init_create c x w).since w := by
  simp only [server_init_create, World.since, ite_emit_trace, emit_trace, emit_env,
    setEnv_trace, setEnv_env, List.append_assoc, List.drop_left]
  refine ⟨trivial, ?_, ?_⟩
  · split_ifs <;> simp [Event.isRegister]
  · simp

/-- The world `server_init` leaves when the lookup reports the name
active. -/
theorem server_init_active (c : Consts) (x : Externals ε) (w : World ε)
    (h1 : (lookup c x w.env).1.1 = c.BOOTSTRAP_SUCCESS) (h2 : (lookup c x w.env).1.2 ≠ 0) :
    server_init c x w =
      ((w.emit (.bootstrap_status c.IPCONFIG_SERVER)).setEnv (lookup c x w.env).2).emit
        (.fprintf_stderr ("\"" ++ c.IPCONFIG_SERVER ++ "\" is currently active.\n")) := by
  unfold lookup at h1 h2
  simp [server_init, h1, h2, lookup]

/-- The world `server_init` leaves when the lookup reports neither an
active name nor an error: it goes on to `server_init_create`. -/
theorem server_init_proceeds (c : Consts) (x : Externals ε) (w : World ε)
    (h : ((lookup c x w.env).1.1 = c.BOOTSTRAP_SUCCESS ∧ (lookup c x w.env).1.2 = 0) ∨
      ((lookup c x w.env).1.1 ≠ c.BOOTSTRAP_SUCCESS ∧
        (lookup c x w.env).1.1 = c.BOOTSTRAP_UNKNOWN_SERVICE)) :
    server_init c x w =
      server_init_create c x
        ((w.emit (.bootstrap_status c.IPCONFIG_SERVER)).setEnv (lookup c x w.env).2) := by
  unfold lookup at h
  rcases h with ⟨h1, h2⟩ | ⟨h1, h2⟩
  · simp [server_init, h1, h2, lookup]
  · simp only [server_init, lookup]
    rw [if_neg h1, if_pos h2]

/-- The world `server_init` leaves when the lookup reports an error other
than an unknown service. -/
theorem server_init_error (c : Consts) (x : Externals ε) (w : World ε)
    (h1 : (lookup c x w.env).1.1 ≠ c.BOOTSTRAP_SUCCESS)
    (h2 : (lookup c x w.env).1.1 ≠ c.BOOTSTRAP_UNKNOWN_SERVICE) :
    server_init c x w =
      ((w.emit (.bootstrap_status c.IPCONFIG_SERVER)).setEnv (lookup c x w.env).2).emit
        (.fprintf_stderr
          ("bootstrap_status(): " ++ x.mach_error_string (lookup c x w.env).1.1 ++ "\n")) := by
  unfold lookup at h1 h2
  simp only [server_init, lookup]
  rw [if_neg h1, if_neg h2]

/-- The calls since `w1` when the trace of `w2` extends that of `w1`. -/
theorem since_of_trace (w2 w1 : World ε) (l : List Event) (h : w2.trace = w1.trace ++ l) :
    w2.since w1 = l := by
  simp [World.since, h]

/-- The trace of `server_init` when it goes on to `server_init_create`: the
lookup, then the calls of `server_init_create`. -/
theorem server_init_proceeds_trace (c : Consts) (x : Externals ε) (w : World ε)
    (h : ((lookup c x w.env).1.1 = c.BOOTSTRAP_SUCCESS ∧ (lookup c x w.env).1.2 = 0) ∨
      ((lookup c x w.env).1.1 ≠ c.BOOTSTRAP_SUCCESS ∧
        (lookup c x w.env).1.1 = c.BOOTSTRAP_UNKNOWN_SERVICE)) :
    (server_init c x w).trace = w.trace ++
      (.bootstrap_status c.IPCONFIG_SERVER ::
        (server_init_create c x
          ((w.emit (.bootstrap_status c.IPCONFIG_SERVER)).setEnv (lookup c x w.env).2)).since
          ((w.emit (.bootstrap_status c.IPCONFIG_SERVER)).setEnv (lookup c x w.env).2)) := by
  rw [server_init_proceeds c x w h]
  have ht := (server_init_create_trace c x
    ((w.emit (.bootstrap_status c.IPCONFIG_SERVER)).setEnv (lookup c x w.env).2)).1
  rw [setEnv_trace, emit_trace, List.append_assoc] at ht
  exact ht

/-- C10: when the `bootstrap_status` query of `server_init` reports the
name active, `server_init` only prints the "is currently active" diagnostic
after the query and returns: no `CFMachPortCreate`, no run-loop source, no
`bootstrap_register`.  Whenever `server_init` does create the port, it calls
`bootstrap_register` exactly once.  So when a first `server_init` finds the
name neither active nor in error and a second one, run after it, finds the
name active, the two together call `bootstrap_register` exactly once. -/
theorem server_init_registers_once (c : Consts) (x : Externals ε) (w : World ε) :
    ((lookup c x w.env).1.1 = c.BOOTSTRAP_SUCCESS → (lookup c x w.env).1.2 ≠ 0 →
      (server_init c x w).since w
        = [.bootstrap_status c.IPCONFIG_SERVER,
           .fprintf_stderr ("\"" ++ c.IPCONFIG_SERVER ++ "\" is currently active.\n")] ∧
      (server_init c x w).env = (lookup c x w.env).2) ∧
    (Event.CFMachPortCreate ∈ (server_init c x w).since w →
      (((server_init c x w).since w).filter Event.isRegister).length = 1) ∧
    (((lookup c x w.env).1.1 = c.BOOTSTRAP_SUCCESS ∧ (lookup c x w.env).1.2 = 0) ∨
        ((lookup c x w.env).1.1 ≠ c.BOOTSTRAP_SUCCESS ∧
          (lookup c x w.env).1.1 = c.BOOTSTRAP_UNKNOWN_SERVICE) →
      (lookup c x (server_init c x w).env).1.1 = c.BOOTSTRAP_SUCCESS →
      (lookup c x (server_init c x w).env).1.2 ≠ 0 →
      (((server_init c x (server_init c x w)).since w).filter Event.isRegister).length = 1 ∧
      ((server_init c x (server_init c x w)).since (server_init c x w)).filter
        (fun e => e.isRegister || e == .CFMachPortCreate) = []) := by
  refine ⟨?_, ?_, ?_⟩
  · intro h1 h2
    rw [server_init_active c x w h1 h2]
    simp [World.since, emit_trace, setEnv_trace, emit_env, setEnv_env]
  · intro hmem
    by_cases hp : ((lookup c x w.env).1.1 = c.BOOTSTRAP_SUCCESS ∧ (lookup c x w.env).1.2 = 0) ∨
        ((lookup c x w.env).1.1 ≠ c.BOOTSTRAP_SUCCESS ∧
          (lookup c x w.env).1.1 = c.BOOTSTRAP_UNKNOWN_SERVICE)
    · rw [since_of_trace _ _ _ (server_init_proceeds_trace c x w hp)]
      have hr := (server_init_create_trace c x
        ((w.emit (.bootstrap_status c.IPCONFIG_SERVER)).setEnv (lookup c x w.env).2)).2.1
      simpa [List.filter_cons, Event.isRegister] using hr
    · exfalso
      by_cases h1 : (lookup c x w.env).1.1 = c.BOOTSTRAP_SUCCESS
      · have h2 : (lookup c x w.env).1.2 ≠ 0 := fun h0 => hp (Or.inl ⟨h1, h0⟩)
        rw [server_init_active c x w h1 h2] at hmem
        simp [World.since, emit_trace, setEnv_trace] at hmem
      · have h2 : (lookup c x w.env).1.1 ≠ c.BOOTSTRAP_UNKNOWN_SERVICE :=
          fun h0 => hp (Or.inr ⟨h1, h0⟩)
        rw [server_init_error c x w h1 h2] at hmem
        simp [World.since, emit_trace, setEnv_trace] at hmem
  · intro hp h1 h2
    have ht1 := server_init_proceeds_trace c x w hp
    have hr := (server_init_create_trace c x
      ((w.emit (.bootstrap_status c.IPCONFIG_SERVER)).setEnv (lookup c x w.env).2)).2.1
    have ht2 : (server_init c x (server_init c x w)).trace
        = (server_init c x w).trace ++ [.bootstrap_status c.IPCONFIG_SERVER,
            .fprintf_stderr ("\"" ++ c.IPCONFIG_SERVER ++ "\" is currently active.\n")] := by
      rw [server_init_active c x (server_init c x w) h1 h2]
      simp [emit_trace, setEnv_trace]
    refine ⟨?_, ?_⟩
    · have ht3 := ht2
      rw [ht1, List.append_assoc] at ht3
      rw [since_of_trace _ _ _ ht3]
      simpa [List.filter_cons, List.filter_append, Event.isRegister] using hr
    · rw [since_of_trace _ _ _ ht2]
      simp [Event.isRegister]

/-- Witness for C10: in `sim`, a startup that finds the name registered, and
two startups in a row from a state where nothing is registered. -/
theorem server_init_registers_once_witness :
    ((server_init mach (sim 0) world_registered).since world_registered
        = [.bootstrap_status mach.IPCONFIG_SERVER,
           .fprintf_stderr ("\"" ++ mach.IPCONFIG_SERVER ++ "\" is currently active.\n")] ∧
      (server_init mach (sim 0) world_registered).env
        = (lookup mach (sim 0) world_registered.env).2) ∧
    (((server_init mach (sim 0) (world0 0)).since (world0 0)).filter Event.isRegister).length
      = 1 ∧
    ((((server_init mach (sim 0) (server_init mach (sim 0) (world0 0))).since
          (world0 0)).filter Event.isRegister).length = 1 ∧
      ((server_init mach (sim 0) (server_init mach (sim 0) (world0 0))).since
          (server_init mach (sim 0) (world0 0))).filter
        (fun e => e.isRegister || e == .CFMachPortCreate) = []) :=
  ⟨(server_init_registers_once mach (sim 0) world_registered).1 (by decide) (by decide),
    (server_init_registers_once mach (sim 0) (world0 0)).2.1
      (by simp [server_init, server_init_create, World.since, World.emit, World.setEnv,
        world0, sim, mach]),
    (server_init_registers_once mach (sim 0) (world0 0)).2.2 (by decide)
      (by simp [server_init, server_init_create, lookup, World.emit, World.setEnv,
        world0, sim, mach])
      (by simp [server_init, server_init_create, lookup, World.emit, World.setEnv,
        world0, sim, mach])⟩

end IPConfiguration
